import Mathlib

/-!
Shallow embedding of `src/clusterfuzz/_internal/bot/tasks/__init__.py`:
the execution-strategy classes (`TrustedTask`, `UTask` — defined twice in the
source, the second definition shadowing the first — `UTaskLocalExecutor`,
`PostprocessTask`, `UworkerMainTask`), the task registry `COMMAND_MAP`, and
the classification queries `is_multimachine_executed` and
`get_multimachine_tasks`.

The `utasks` helper module (`tworker_preprocess`, `uworker_main`,
`tworker_preprocess_no_io`, `uworker_main_no_io`,
`tworker_postprocess_no_io`, `tworker_postprocess`) is imported by the
source file but its body is not among the sources; each of those helpers is
modelled from the spec, and its doc comment says so.

Modelling conventions:
* the opaque handoff-artifact type is a type parameter `α`;
* durable storage is a list of records, each keeping the producing task
  module next to the artifact (the real artifact embeds which task produced
  it); a locator is the record's index. The real system's path/URL strings
  are modelled by those indices; the entry-point tasks that receive a
  locator in their string `task_argument` parse it with `String.toNat?`;
* every phase call and every storage interaction is recorded in a returned
  `Event` trace, so "phase X was invoked" and "storage was touched" are
  statements about that trace;
* the Python `execute` methods return `None` on every code path; the spec's
  `Signal ∈ {Completed, Skipped}` abstraction is modelled from the spec
  (§4.2): an early `return` that short-circuits the remaining phases of the
  method body is `Skipped`, a normal fall-through of the body is
  `Completed`.
-/

namespace ClusterfuzzTasks

/-- Ambient environment mapping (the `uworker_env` argument). -/
abbrev Env := List (String × String)

/-- The spec's per-execution signal; both constructors are success
outcomes (`Skipped` means a phase found no work). -/
inductive Signal where
  | completed
  | skipped
deriving DecidableEq

/-- The three-function Phase Contract a utask module exposes
(`utask_preprocess`, `utask_main`, `utask_postprocess`); `none` models a
Python `None` result ("nothing to do downstream"). `utask_postprocess`
returns nothing, so its invocation is observable only through the event
trace. -/
structure UTaskModule (α : Type) where
  utask_preprocess : String → String → Env → Option α
  utask_main : α → Option α
  utask_postprocess : α → Unit

/-- Observable events of one execution: the phase invocations (with their
arguments) and the storage collaborator's `materialize`/`resolve` calls. -/
inductive Event (α : Type) where
  | preprocessEv (arg job : String) (env : Env)
  | mainEv (input : α)
  | postprocessEv (output : α)
  | executeTaskEv (arg job : String)
  | materializeEv (a : α)
  | resolveEv (loc : Nat)
deriving DecidableEq

/-- The durable artifact store: a list of materialized records. A record
keeps the producing module together with the artifact, because the real
stored input/output embeds which task it belongs to (spec §4.2, variant 4:
the postprocess entry point "dispatches into whichever original task
produced the artifact, determined by data embedded in the artifact"). -/
abbrev Storage (α : Type) := List (UTaskModule α × α)

variable {α : Type}

/-- The events of a trace with the storage interactions removed: what
remains is the logical phase-invocation sequence, independent of the
artifact's physical representation. -/
def logicalEvents (tr : List (Event α)) : List (Event α) :=
  tr.filter fun e =>
    match e with
    | Event.materializeEv _ => false
    | Event.resolveEv _ => false
    | _ => true

/-- How many times the storage collaborator's `materialize` was invoked. -/
def countMaterialize (tr : List (Event α)) : Nat :=
  tr.countP fun e => match e with | Event.materializeEv _ => true | _ => false

/-- How many times the storage collaborator's `resolve` was invoked. -/
def countResolve (tr : List (Event α)) : Nat :=
  tr.countP fun e => match e with | Event.resolveEv _ => true | _ => false

/-- How many times the `main` phase was invoked. -/
def countMainCalls (tr : List (Event α)) : Nat :=
  tr.countP fun e => match e with | Event.mainEv _ => true | _ => false

/-- How many times the `postprocess` phase was invoked. -/
def countPostCalls (tr : List (Event α)) : Nat :=
  tr.countP fun e => match e with | Event.postprocessEv _ => true | _ => false

/-- How many times the task body `execute_task` of a trusted task was
invoked. -/
def countExecuteTaskCalls (tr : List (Event α)) : Nat :=
  tr.countP fun e => match e with | Event.executeTaskEv _ _ => true | _ => false

/-- Modelled from the spec: `utasks.tworker_preprocess` (the `utasks`
module is not among the sources). Runs the module's preprocess with the
full context; if an artifact is produced it is materialized to durable
storage and the locator is returned, paired with the produced input (the
source destructures the result as `input_download_url, _`). An absent
artifact yields `none` (spec §4.2: "If preprocess yields no artifact, the
strategy transitions directly to Skipped"). -/
def tworker_preprocess (m : UTaskModule α) (task_argument job_type : String)
    (uworker_env : Env) (st : Storage α) :
    Option (Nat × α) × List (Event α) × Storage α :=
  match m.utask_preprocess task_argument job_type uworker_env with
  | none => (none, [Event.preprocessEv task_argument job_type uworker_env], st)
  | some a =>
      (some (st.length, a),
       [Event.preprocessEv task_argument job_type uworker_env, Event.materializeEv a],
       st ++ [(m, a)])

/-- Modelled from the spec: `utasks.uworker_main` (not among the sources).
Resolves the input locator, runs the producing module's main phase on the
artifact with no ambient environment, and materializes the second artifact
when one is produced, returning its locator (`none` when main signals
no-op, spec §4.2: "produces a second artifact/locator or signals no-op"). -/
def uworker_main (st : Storage α) (input_download_url : Nat) :
    Option Nat × List (Event α) × Storage α :=
  match st[input_download_url]? with
  | none => (none, [Event.resolveEv input_download_url], st)
  | some (m, a) =>
    match m.utask_main a with
    | none => (none, [Event.resolveEv input_download_url, Event.mainEv a], st)
    | some b =>
        (some st.length,
         [Event.resolveEv input_download_url, Event.mainEv a, Event.materializeEv b],
         st ++ [(m, b)])

/-- Modelled from the spec: `utasks.tworker_postprocess` (not among the
sources). Resolves the output locator and runs the producing module's
postprocess phase on the artifact (spec §4.2: "resolves the second locator
and finalizes results"). -/
def tworker_postprocess (st : Storage α) (output_url : Nat) :
    List (Event α) × Storage α :=
  match st[output_url]? with
  | none => ([Event.resolveEv output_url], st)
  | some (_, b) => ([Event.resolveEv output_url, Event.postprocessEv b], st)

/-- Modelled from the spec: `utasks.tworker_preprocess_no_io` (not among
the sources). The in-memory preprocess: the artifact stays in-process as a
value, nothing is materialized (spec §4.2, variant 3). -/
def tworker_preprocess_inmem (m : UTaskModule α) (task_argument job_type : String)
    (uworker_env : Env) : Option α × List (Event α) :=
  (m.utask_preprocess task_argument job_type uworker_env,
   [Event.preprocessEv task_argument job_type uworker_env])

/-- Modelled from the spec: `utasks.uworker_main_no_io` (not among the
sources). The in-memory main: consumes the in-process input value, nothing
is resolved or materialized (spec §4.2, variant 3). -/
def uworker_main_inmem (m : UTaskModule α) (uworker_input : α) :
    Option α × List (Event α) :=
  (m.utask_main uworker_input, [Event.mainEv uworker_input])

/-- Modelled from the spec: `utasks.tworker_postprocess_no_io` (not among
the sources). The in-memory postprocess: finalizes the in-process output
value (spec §4.2, variant 3). -/
def tworker_postprocess_inmem (_m : UTaskModule α) (uworker_output uworker_input : α) :
    List (Event α) :=
  let _ := uworker_input
  [Event.postprocessEv uworker_output]

/-- `TrustedTask.execute`: discards `uworker_env` (`del uworker_env`) and
runs the module's whole body, `self.module.execute_task(task_argument,
job_type)`; the body's invocation is the single recorded event. -/
def TrustedTask.execute (task_argument job_type : String) (uworker_env : Env)
    (st : Storage α) : Signal × List (Event α) × Storage α :=
  let _ := uworker_env
  (Signal.completed, [Event.executeTaskEv task_argument job_type], st)

/-- The effective `UTask.execute`: the source defines the class `UTask`
twice and the second definition shadows the first, so the executed body is
the second one — preprocess, then (when an artifact was produced)
`utasks.uworker_main` on the returned download locator, with postprocess
left to be "executed on other machines". An absent preprocess artifact is
the early return (`Skipped`); the fall-through after main is `Completed`. -/
def UTask.execute (m : UTaskModule α) (task_argument job_type : String)
    (uworker_env : Env) (st : Storage α) : Signal × List (Event α) × Storage α :=
  match tworker_preprocess m task_argument job_type uworker_env st with
  | (none, ev1, st1) => (Signal.skipped, ev1, st1)
  | (some (input_download_url, _), ev1, st1) =>
    match uworker_main st1 input_download_url with
    | (_, ev2, st2) => (Signal.completed, ev1 ++ ev2, st2)

/-- `UTaskLocalExecutor.execute`: the whole pipeline in one process and in
memory, with an early return (`Skipped`) when preprocess or main yields no
value. -/
def UTaskLocalExecutor.execute (m : UTaskModule α) (task_argument job_type : String)
    (uworker_env : Env) : Signal × List (Event α) :=
  match tworker_preprocess_inmem m task_argument job_type uworker_env with
  | (none, ev1) => (Signal.skipped, ev1)
  | (some uworker_input, ev1) =>
    match uworker_main_inmem m uworker_input with
    | (none, ev2) => (Signal.skipped, ev1 ++ ev2)
    | (some uworker_output, ev2) =>
        (Signal.completed,
         ev1 ++ ev2 ++ tworker_postprocess_inmem m uworker_output uworker_input)

/-- Modelled from the spec: the complete Distributed-Untrusted pipeline
(spec §4.2, variant 2). Its first machine's slice is exactly
`UTask.execute` (preprocess, hand-off, main); the postprocess stage is
"invoked later, possibly by a different strategy instance" on the second
locator, which happens only when main materialized an output. The pipeline
is `Completed` when the postprocess stage ran and `Skipped` when an absent
artifact short-circuited it. The cross-machine scheduling that chains the
stages is not among the sources. -/
def distributed_pipeline (m : UTaskModule α) (task_argument job_type : String)
    (uworker_env : Env) (st : Storage α) : Signal × List (Event α) × Storage α :=
  match tworker_preprocess m task_argument job_type uworker_env st with
  | (none, ev1, st1) => (Signal.skipped, ev1, st1)
  | (some (input_download_url, _), ev1, st1) =>
    match uworker_main st1 input_download_url with
    | (none, ev2, st2) => (Signal.skipped, ev1 ++ ev2, st2)
    | (some output_url, ev2, st2) =>
      match tworker_postprocess st2 output_url with
      | (ev3, st3) => (Signal.completed, ev1 ++ ev2 ++ ev3, st3)

/-- `PostprocessTask.execute`: `job_type` and `uworker_env` are deleted,
`input_path = task_argument`, then `utasks.tworker_postprocess(input_path)`.
The path names a locator, modelled as its decimal rendering. -/
def PostprocessTask.execute (task_argument job_type : String) (uworker_env : Env)
    (st : Storage α) : Signal × List (Event α) × Storage α :=
  let _ := job_type
  let _ := uworker_env
  match task_argument.toNat? with
  | none => (Signal.completed, [], st)
  | some loc =>
    match tworker_postprocess st loc with
    | (ev, st2) => (Signal.completed, ev, st2)

/-- `UworkerMainTask.execute`: `job_type` and `uworker_env` are deleted,
`input_path = task_argument`, then `utasks.uworker_main(input_path)`. -/
def UworkerMainTask.execute (task_argument job_type : String) (uworker_env : Env)
    (st : Storage α) : Signal × List (Event α) × Storage α :=
  let _ := job_type
  let _ := uworker_env
  match task_argument.toNat? with
  | none => (Signal.completed, [], st)
  | some loc =>
    match uworker_main st loc with
    | (_, ev, st2) => (Signal.completed, ev, st2)

/-- An execution strategy bound in the registry: one constructor per class
of the source whose instances appear in `COMMAND_MAP`. `uTask` stands for
an instance of the effective (second) `UTask` class; a trusted task's
module is identified by its name, its body being out of scope. -/
inductive Task (α : Type) where
  | trustedTask (module : String)
  | uTask (module : UTaskModule α)
  | uTaskLocalExecutor (module : UTaskModule α)
  | postprocessTask
  | uworkerMainTask

/-- `execute` of the bound strategy, dispatching on the class. -/
def Task.execute : Task α → String → String → Env → Storage α →
    Signal × List (Event α) × Storage α
  | Task.trustedTask _, arg, job, env, st => TrustedTask.execute arg job env st
  | Task.uTask m, arg, job, env, st => UTask.execute m arg job env st
  | Task.uTaskLocalExecutor m, arg, job, env, st =>
    match UTaskLocalExecutor.execute m arg job env with
    | (s, ev) => (s, ev, st)
  | Task.postprocessTask, arg, job, env, st => PostprocessTask.execute arg job env st
  | Task.uworkerMainTask, arg, job, env, st => UworkerMainTask.execute arg job env st

/-- `utask_factory(task_module, in_memory=True)`: the in-memory executor
under the default, the distributed `UTask` otherwise. -/
def utask_factory (task_module : UTaskModule α) (in_memory : Bool := true) : Task α :=
  if in_memory then Task.uTaskLocalExecutor task_module
  else Task.uTask task_module

/-- `isinstance(task, UTask)`, against the effective (second) `UTask`
class: true exactly for its instances, false for every other class of the
file (none of the others subclasses it). -/
def isUTaskInstance : Task α → Bool
  | Task.uTask _ => true
  | _ => false

/-- One insertion into a Python dict literal: a key already present has its
value silently replaced in place (keeping the original insertion position),
a new key is appended. -/
def dictInsert (cmap : List (String × Task α)) (name : String) (t : Task α) :
    List (String × Task α) :=
  if cmap.any fun p => p.1 == name then
    cmap.map fun p => if p.1 == name then (p.1, t) else p
  else cmap ++ [(name, t)]

/-- A Python dict literal built from its key-value pairs in source order. -/
def dict_of_pairs (pairs : List (String × Task α)) : List (String × Task α) :=
  pairs.foldl (fun cmap p => dictInsert cmap p.1 p.2) []

/-- Indexing a dict by key: the binding of the (unique) key, `none` being
Python's `KeyError`. -/
def lookupTask (cmap : List (String × Task α)) (name : String) : Option (Task α) :=
  (cmap.find? fun p => p.1 == name).map Prod.snd

/-- The task modules the source imports; their bodies are out of scope, so
the registry is parameterized by them. -/
structure TaskModules (α : Type) where
  analyze_task : UTaskModule α
  corpus_pruning_task : UTaskModule α
  fuzz_task : UTaskModule α
  minimize_task : UTaskModule α
  progression_task : UTaskModule α
  regression_task : UTaskModule α
  variant_task : UTaskModule α

/-- The shipped registry `COMMAND_MAP`, the dict literal of the source in
its source order; every `utask_factory` call leaves `in_memory` at its
default. -/
def COMMAND_MAP (tm : TaskModules α) : List (String × Task α) :=
  [("analyze", utask_factory tm.analyze_task),
   ("blame", Task.trustedTask "blame_task"),
   ("corpus_pruning", utask_factory tm.corpus_pruning_task),
   ("fuzz", utask_factory tm.fuzz_task),
   ("impact", Task.trustedTask "impact_task"),
   ("minimize", utask_factory tm.minimize_task),
   ("progression", utask_factory tm.progression_task),
   ("regression", utask_factory tm.regression_task),
   ("symbolize", Task.trustedTask "symbolize_task"),
   ("unpack", Task.trustedTask "unpack_task"),
   ("uworker_postprocess", Task.postprocessTask),
   ("upload_reports", Task.trustedTask "upload_reports_task"),
   ("uworker_main", Task.uworkerMainTask),
   ("variant", utask_factory tm.variant_task)]

/-- `is_multimachine_executed(task_name)`: `task = COMMAND_MAP[task_name]`
(a `KeyError`, here `none`, for an absent name) followed by
`isinstance(task, UTask)`. -/
def is_multimachine_executed (cmap : List (String × Task α)) (task_name : String) :
    Option Bool :=
  (lookupTask cmap task_name).map isUTaskInstance

/-- `get_multimachine_tasks()`: the registry's names, in registry order,
filtered by `is_multimachine_executed`. -/
def get_multimachine_tasks (cmap : List (String × Task α)) : List String :=
  (cmap.map Prod.fst).filter fun task_name =>
    is_multimachine_executed cmap task_name == some true

/-- The dispatch failure for an unregistered name (`UnknownTaskError`; the
`KeyError` of indexing `COMMAND_MAP`). -/
inductive TaskError where
  | unknownTask (name : String)
deriving DecidableEq

/-- Modelled from the spec: the Dispatch Facade `dispatch(name, context)`
(§4.1); the runner that indexes `COMMAND_MAP` and calls the bound
strategy's `execute` is not among the sources. An absent name fails with
`UnknownTaskError`, a present one forwards to the bound strategy. -/
def dispatch (cmap : List (String × Task α)) (name task_argument job_type : String)
    (uworker_env : Env) (st : Storage α) :
    Except TaskError (Signal × List (Event α) × Storage α) :=
  match lookupTask cmap name with
  | none => Except.error (TaskError.unknownTask name)
  | some t => Except.ok (Task.execute t task_argument job_type uworker_env st)

/-- A concrete utask module whose phases all signal "nothing to do". -/
def trivModule : UTaskModule Nat :=
  { utask_preprocess := fun _ _ _ => none
    utask_main := fun _ => none
    utask_postprocess := fun _ => () }

/-- A concrete utask module whose preprocess yields artifact `1` and whose
main then yields artifact `2`. -/
def roundtripModule : UTaskModule Nat :=
  { utask_preprocess := fun _ _ _ => some 1
    utask_main := fun a => some (a + 1)
    utask_postprocess := fun _ => () }

/-- A concrete utask module whose preprocess yields artifact `1` and whose
main then signals "nothing to do". -/
def mainAbsentModule : UTaskModule Nat :=
  { utask_preprocess := fun _ _ _ => some 1
    utask_main := fun _ => none
    utask_postprocess := fun _ => () }

/-- A concrete instantiation of the shipped registry's modules. -/
def tmEx : TaskModules Nat :=
  { analyze_task := trivModule
    corpus_pruning_task := trivModule
    fuzz_task := trivModule
    minimize_task := trivModule
    progression_task := trivModule
    regression_task := trivModule
    variant_task := trivModule }

/-! ## Shared lemmas -/

/-- Looking a name up in a registry headed by a different name skips the
head binding. -/
theorem lookupTask_cons_ne (k : String) (t : Task α)
    (rest : List (String × Task α)) (n : String) (h : k ≠ n) :
    lookupTask ((k, t) :: rest) n = lookupTask rest n := by
  simp [lookupTask, List.find?_cons, h]

/-- Looking the head binding's own name up yields the head binding. -/
theorem lookupTask_cons_self (k : String) (t : Task α)
    (rest : List (String × Task α)) :
    lookupTask ((k, t) :: rest) k = some t := by
  simp [lookupTask, List.find?_cons]

/-- Every strategy bound in the shipped registry fails the
`isinstance(task, UTask)` test: the utask entries are all built by
`utask_factory` at its default `in_memory=True`. -/
theorem shipped_values_not_utask (tm : TaskModules α) (p : String × Task α)
    (hp : p ∈ COMMAND_MAP tm) : isUTaskInstance p.2 = false := by
  simp only [COMMAND_MAP, List.mem_cons, List.not_mem_nil, or_false] at hp
  rcases hp with rfl | rfl | rfl | rfl | rfl | rfl | rfl | rfl | rfl | rfl | rfl | rfl |
    rfl | rfl <;> rfl

/-- Resolving the second of two just-appended records. -/
theorem getElem?_append_two {β : Type} (l : List β) (x y : β) :
    (l ++ [x, y])[l.length + 1]? = some y := by
  have h : l ++ [x, y] = (l ++ [x]) ++ [y] := by simp
  have h2 : l.length + 1 = (l ++ [x]).length := by simp
  rw [h, h2, List.getElem?_concat_length]

/-- The in-bounds version of `getElem?_append_two`. -/
theorem getElem_append_two {β : Type} (l : List β) (x y : β)
    (h : l.length + 1 < (l ++ [x, y]).length) :
    (l ++ [x, y])[l.length + 1] = y := by
  have h2 := getElem?_append_two l x y
  rw [List.getElem?_eq_getElem h] at h2
  exact Option.some.inj h2

/-! ## Claims about the execution strategies -/

/-- Claim C9: for the Trusted variant, `execute` invokes the task module's
`execute_task` exactly once with the task argument and job type, never
touches a Handoff Artifact (no materialize, no resolve, storage unchanged,
no phase events at all), and discards the environment argument (the result
is the same under any environment). -/
theorem claim9_trusted_no_handoff (module arg job : String) (env env2 : Env)
    (st : Storage α) :
    Task.execute (Task.trustedTask module) arg job env st =
      (Signal.completed, [Event.executeTaskEv arg job], st) ∧
    countExecuteTaskCalls (Task.execute (Task.trustedTask module) arg job env st).2.1 = 1 ∧
    countMaterialize (Task.execute (Task.trustedTask module) arg job env st).2.1 = 0 ∧
    countResolve (Task.execute (Task.trustedTask module) arg job env st).2.1 = 0 ∧
    Task.execute (Task.trustedTask module) arg job env st =
      Task.execute (Task.trustedTask module) arg job env2 st :=
  ⟨rfl, rfl, rfl, rfl, rfl⟩

/-- Claim C4: for both the Distributed-Untrusted strategy (`UTask`, and the
complete distributed pipeline it starts) and the Local-Untrusted strategy,
an absent preprocess artifact means `main` and `postprocess` are never
invoked (the whole trace is the one preprocess call) and `execute` returns
`Skipped`. -/
theorem claim4_preprocess_absent_skips (m : UTaskModule α)
    (arg job : String) (env : Env) (st : Storage α)
    (hpre : m.utask_preprocess arg job env = none) :
    UTask.execute m arg job env st =
      (Signal.skipped, [Event.preprocessEv arg job env], st) ∧
    UTaskLocalExecutor.execute m arg job env =
      (Signal.skipped, [Event.preprocessEv arg job env]) ∧
    distributed_pipeline m arg job env st =
      (Signal.skipped, [Event.preprocessEv arg job env], st) := by
  refine ⟨?_, ?_, ?_⟩ <;>
    simp [UTask.execute, UTaskLocalExecutor.execute, distributed_pipeline,
      tworker_preprocess, tworker_preprocess_inmem, hpre]

/-- Witness for C4 at a concrete module whose preprocess yields nothing. -/
theorem claim4_instance :
    UTask.execute trivModule "t" "j" [] ([] : Storage Nat) =
      (Signal.skipped, [Event.preprocessEv "t" "j" []], []) ∧
    UTaskLocalExecutor.execute trivModule "t" "j" [] =
      (Signal.skipped, [Event.preprocessEv "t" "j" []]) ∧
    distributed_pipeline trivModule "t" "j" [] ([] : Storage Nat) =
      (Signal.skipped, [Event.preprocessEv "t" "j" []], []) :=
  claim4_preprocess_absent_skips trivModule "t" "j" [] [] rfl

/-- Claim C1 (mode independence): for every Phase Contract and input, the
Distributed-Untrusted pipeline and the Local-Untrusted executor produce
the identical sequence of phase invocations (with identical artifacts) and
the identical final signal; the traces differ only by the storage
interactions (`materialize`/`resolve`), i.e. by the artifact's physical
representation. The third conjunct anchors the pipeline to the source's
`UTask.execute`: the pipeline's trace extends `UTask.execute`'s trace by
exactly the deferred postprocess stage. -/
theorem claim1_mode_independence (m : UTaskModule α)
    (arg job : String) (env : Env) (st : Storage α) :
    logicalEvents (distributed_pipeline m arg job env st).2.1 =
      (UTaskLocalExecutor.execute m arg job env).2 ∧
    (distributed_pipeline m arg job env st).1 =
      (UTaskLocalExecutor.execute m arg job env).1 ∧
    ∃ deferred, (distributed_pipeline m arg job env st).2.1 =
      (UTask.execute m arg job env st).2.1 ++ deferred := by
  cases hpre : m.utask_preprocess arg job env with
  | none =>
    refine ⟨?_, ?_, [], ?_⟩ <;>
      simp [distributed_pipeline, UTask.execute, UTaskLocalExecutor.execute,
        tworker_preprocess, tworker_preprocess_inmem, hpre, logicalEvents]
  | some a =>
    cases hmain : m.utask_main a with
    | none =>
      refine ⟨?_, ?_, [], ?_⟩ <;>
        simp [distributed_pipeline, UTask.execute, UTaskLocalExecutor.execute,
          tworker_preprocess, tworker_preprocess_inmem, uworker_main,
          uworker_main_inmem, hpre, hmain, List.getElem?_concat_length,
          logicalEvents]
    | some b =>
      refine ⟨?_, ?_,
        [Event.resolveEv (st ++ [(m, a)]).length,
         Event.postprocessEv b], ?_⟩ <;>
        simp [distributed_pipeline, UTask.execute, UTaskLocalExecutor.execute,
          tworker_preprocess, tworker_preprocess_inmem, uworker_main,
          uworker_main_inmem, tworker_postprocess, tworker_postprocess_inmem,
          hpre, hmain, List.getElem?_concat_length, getElem?_append_two,
          getElem_append_two, logicalEvents]

/-- Claim C2 (distributed round trip): when preprocess yields artifact `a`
and main then yields artifact `b`, the Distributed-Untrusted pipeline
finalizes `b` in postprocess and returns `Completed`, with the storage
collaborator's `materialize` and `resolve` each invoked exactly twice —
once per machine boundary; `UTask.execute`, the pipeline's first machine,
itself returns `Completed`. -/
theorem claim2_distributed_roundtrip (m : UTaskModule α)
    (arg job : String) (env : Env) (st : Storage α) (a b : α)
    (hpre : m.utask_preprocess arg job env = some a)
    (hmain : m.utask_main a = some b) :
    (distributed_pipeline m arg job env st).1 = Signal.completed ∧
    countMaterialize (distributed_pipeline m arg job env st).2.1 = 2 ∧
    countResolve (distributed_pipeline m arg job env st).2.1 = 2 ∧
    countPostCalls (distributed_pipeline m arg job env st).2.1 = 1 ∧
    (UTask.execute m arg job env st).1 = Signal.completed := by
  refine ⟨?_, ?_, ?_, ?_, ?_⟩ <;>
    simp [distributed_pipeline, UTask.execute, tworker_preprocess, uworker_main,
      tworker_postprocess, hpre, hmain, List.getElem?_concat_length,
      countMaterialize, countResolve, countPostCalls]

/-- Witness for C2 at a concrete module: preprocess yields `1`, main maps
it to `2`, postprocess finalizes. -/
theorem claim2_roundtrip_instance :
    (distributed_pipeline roundtripModule "t" "j" [] ([] : Storage Nat)).1 =
      Signal.completed ∧
    countMaterialize
      (distributed_pipeline roundtripModule "t" "j" [] ([] : Storage Nat)).2.1 = 2 ∧
    countResolve
      (distributed_pipeline roundtripModule "t" "j" [] ([] : Storage Nat)).2.1 = 2 ∧
    countPostCalls
      (distributed_pipeline roundtripModule "t" "j" [] ([] : Storage Nat)).2.1 = 1 ∧
    (UTask.execute roundtripModule "t" "j" [] ([] : Storage Nat)).1 =
      Signal.completed :=
  claim2_distributed_roundtrip roundtripModule "t" "j" [] [] 1 2 rfl rfl

/-- Counterexample to claim C5 as stated: at a concrete module whose
preprocess yields an artifact and whose main yields none, the source's
`UTask.execute` body runs to its end (its `Completed` fall-through, the
same return as on success) rather than returning `Skipped`; only the
Local-Untrusted executor's early return gives `Skipped`. -/
theorem claim5_counterexample :
    (UTask.execute mainAbsentModule "t" "j" [] ([] : Storage Nat)).1 =
      Signal.completed ∧
    (UTaskLocalExecutor.execute mainAbsentModule "t" "j" []).1 = Signal.skipped ∧
    Signal.completed ≠ Signal.skipped :=
  ⟨rfl, rfl, by decide⟩

/-- Claim C5 as amended: when preprocess yields an artifact and main yields
none, `postprocess` is never invoked under either strategy; the
Local-Untrusted executor returns `Skipped`, while `UTask.execute` does not
observe main's absent result and returns normally (`Completed`) — the
distributed pipeline's final signal is nonetheless `Skipped`, its
postprocess stage never running. -/
theorem claim5_amended_main_absent (m : UTaskModule α)
    (arg job : String) (env : Env) (st : Storage α) (a : α)
    (hpre : m.utask_preprocess arg job env = some a)
    (hmain : m.utask_main a = none) :
    UTaskLocalExecutor.execute m arg job env =
      (Signal.skipped, [Event.preprocessEv arg job env, Event.mainEv a]) ∧
    countPostCalls (UTask.execute m arg job env st).2.1 = 0 ∧
    (UTask.execute m arg job env st).1 = Signal.completed ∧
    (distributed_pipeline m arg job env st).1 = Signal.skipped ∧
    countPostCalls (distributed_pipeline m arg job env st).2.1 = 0 := by
  refine ⟨?_, ?_, ?_, ?_, ?_⟩ <;>
    simp [UTaskLocalExecutor.execute, UTask.execute, distributed_pipeline,
      tworker_preprocess, tworker_preprocess_inmem, uworker_main,
      uworker_main_inmem, hpre, hmain, List.getElem?_concat_length,
      countPostCalls]

/-- Witness for the amended C5 at a concrete module. -/
theorem claim5_instance :
    UTaskLocalExecutor.execute mainAbsentModule "t" "j" [] =
      (Signal.skipped, [Event.preprocessEv "t" "j" [], Event.mainEv 1]) ∧
    countPostCalls (UTask.execute mainAbsentModule "t" "j" [] ([] : Storage Nat)).2.1 = 0 ∧
    (UTask.execute mainAbsentModule "t" "j" [] ([] : Storage Nat)).1 = Signal.completed ∧
    (distributed_pipeline mainAbsentModule "t" "j" [] ([] : Storage Nat)).1 = Signal.skipped ∧
    countPostCalls (distributed_pipeline mainAbsentModule "t" "j" [] ([] : Storage Nat)).2.1 = 0 :=
  claim5_amended_main_absent mainAbsentModule "t" "j" [] [] 1 rfl rfl

/-! ## Claims about the registry and the classification queries -/

/-- Claim C3: for every registered task name, `is_multimachine_executed`
answers the `isinstance(task, UTask)` test of the bound strategy, which is
true exactly when the name is bound to the Distributed-Untrusted `UTask`
(and false for the Trusted, Local-Untrusted, Postprocess-Only and
Main-Only variants). -/
theorem claim3_is_multimachine_iff_utask (cmap : List (String × Task α))
    (n : String) (t : Task α) (hlook : lookupTask cmap n = some t) :
    is_multimachine_executed cmap n = some (isUTaskInstance t) ∧
    (is_multimachine_executed cmap n = some true ↔
      ∃ m : UTaskModule α, t = Task.uTask m) := by
  constructor
  · rw [is_multimachine_executed, hlook, Option.map_some']
  · rw [is_multimachine_executed, hlook, Option.map_some']
    cases t <;> simp [isUTaskInstance]

/-- Witness for C3 at a registry binding one name to a `UTask`. -/
theorem claim3_instance :
    is_multimachine_executed [("b", Task.uTask trivModule)] "b" =
      some (isUTaskInstance (Task.uTask trivModule)) ∧
    (is_multimachine_executed [("b", Task.uTask trivModule)] "b" = some true ↔
      ∃ m : UTaskModule Nat, Task.uTask trivModule = Task.uTask m) :=
  claim3_is_multimachine_iff_utask [("b", Task.uTask trivModule)] "b"
    (Task.uTask trivModule) rfl

/-- Claim C6: dispatching an unregistered name fails with
`UnknownTaskError`; no strategy runs and no signal is returned. -/
theorem claim6_unknown_task_error (cmap : List (String × Task α))
    (name task_argument job_type : String) (uworker_env : Env) (st : Storage α)
    (habsent : lookupTask cmap name = none) :
    dispatch cmap name task_argument job_type uworker_env st =
      Except.error (TaskError.unknownTask name) := by
  simp [dispatch, habsent]

/-- Witness for C6: a name absent from the shipped registry. -/
theorem claim6_instance :
    dispatch (COMMAND_MAP tmEx) "mutate" "t" "j" [] ([] : Storage Nat) =
      Except.error (TaskError.unknownTask "mutate") :=
  claim6_unknown_task_error (COMMAND_MAP tmEx) "mutate" "t" "j" [] [] rfl

/-- Counterexample to claim C7 as stated: registering two strategies under
the same name through the registry's construction (a Python dict literal)
raises no error — the later binding silently replaces the earlier,
different one. -/
theorem claim7_counterexample :
    dict_of_pairs [("analyze", Task.trustedTask "first"),
        ("analyze", (Task.trustedTask "second" : Task Nat))] =
      [("analyze", Task.trustedTask "second")] ∧
    (Task.trustedTask "second" : Task Nat) ≠ Task.trustedTask "first" := by
  refine ⟨rfl, fun h => ?_⟩
  injection h with h2
  exact absurd h2 (by decide)

/-- Claim C7 as amended: the shipped `COMMAND_MAP` literal binds each of
its (pairwise distinct) names to exactly one strategy, and building it as
a dict changes nothing; but duplicate registration is not detected — a
second binding under an already-bound name silently replaces the first. -/
theorem claim7_amended_registry_unique (tm : TaskModules α) :
    ((COMMAND_MAP tm).map Prod.fst).Nodup ∧
    dict_of_pairs (COMMAND_MAP tm) = COMMAND_MAP tm ∧
    ∀ (name : String) (t1 t2 : Task α),
      dict_of_pairs [(name, t1), (name, t2)] = [(name, t2)] := by
  refine ⟨?_, ?_, ?_⟩
  · simp only [COMMAND_MAP, List.map_cons, List.map_nil]
    decide
  · simp [COMMAND_MAP, dict_of_pairs, dictInsert]
  · intro name t1 t2
    simp [dict_of_pairs, dictInsert]

/-- Claim C8: `get_multimachine_tasks` returns exactly the registered
names whose bound strategy is the Distributed-Untrusted `UTask`, in
registry order (the function is pure, so repeated calls agree). -/
theorem claim8_multimachine_listing (cmap : List (String × Task α))
    (hnodup : (cmap.map Prod.fst).Nodup) :
    get_multimachine_tasks cmap =
      (cmap.filter fun p => isUTaskInstance p.2).map Prod.fst := by
  induction cmap with
  | nil => rfl
  | cons hd rest ih =>
    obtain ⟨k, t⟩ := hd
    rw [List.map_cons, List.nodup_cons] at hnodup
    obtain ⟨hk, hrest⟩ := hnodup
    have hstep : ∀ n ∈ rest.map Prod.fst,
        (is_multimachine_executed ((k, t) :: rest) n == some true)
          = (is_multimachine_executed rest n == some true) := by
      intro n hn
      have hkn : k ≠ n := fun h => hk (h ▸ hn)
      rw [is_multimachine_executed, is_multimachine_executed,
        lookupTask_cons_ne k t rest n hkn]
    have hPk : (is_multimachine_executed ((k, t) :: rest) k == some true)
        = isUTaskInstance t := by
      rw [is_multimachine_executed, lookupTask_cons_self k t rest, Option.map_some']
      cases isUTaskInstance t <;> rfl
    show ((k :: rest.map Prod.fst).filter fun n =>
        is_multimachine_executed ((k, t) :: rest) n == some true) = _
    rw [List.filter_cons, hPk, List.filter_congr hstep, List.filter_cons]
    cases h2 : isUTaskInstance t <;>
      simpa [h2, get_multimachine_tasks] using ih hrest

/-- The spec's scenario registry: one Trusted, one Distributed-Untrusted,
one Local-Untrusted binding. -/
def scenarioRegistry : List (String × Task Nat) :=
  [("a", Task.trustedTask "module_a"), ("b", Task.uTask trivModule),
   ("c", Task.uTaskLocalExecutor trivModule)]

/-- Witness for C8: the scenario registry lists exactly `["b"]`. -/
theorem claim8_instance : get_multimachine_tasks scenarioRegistry = ["b"] :=
  (claim8_multimachine_listing scenarioRegistry (by decide)).trans rfl

/-- Claim C10: in the shipped registry every multi-phase entry comes from
`utask_factory` at its default `in_memory=True`, hence is the
Local-Untrusted executor and never the distributed `UTask`; consequently
`is_multimachine_executed` is false wherever it is defined and
`get_multimachine_tasks()` is empty. -/
theorem claim10_shipped_registry_local (tm : TaskModules α) :
    (∀ m : UTaskModule α, utask_factory m = Task.uTaskLocalExecutor m) ∧
    get_multimachine_tasks (COMMAND_MAP tm) = [] ∧
    ∀ name : String, is_multimachine_executed (COMMAND_MAP tm) name =
      (lookupTask (COMMAND_MAP tm) name).map fun _ => false := by
  refine ⟨fun m => rfl, rfl, ?_⟩
  intro name
  rw [is_multimachine_executed]
  cases hlook : lookupTask (COMMAND_MAP tm) name with
  | none => rfl
  | some t =>
    rw [Option.map_some', Option.map_some']
    obtain ⟨p, hfind, hsnd⟩ :
        ∃ p, List.find? (fun q => q.1 == name) (COMMAND_MAP tm) = some p ∧ p.2 = t := by
      rw [lookupTask] at hlook
      cases hf : List.find? (fun q => q.1 == name) (COMMAND_MAP tm) with
      | none => rw [hf] at hlook; exact absurd hlook (by simp)
      | some p => rw [hf] at hlook; exact ⟨p, rfl, Option.some.inj hlook⟩
    have hp : p ∈ COMMAND_MAP tm := List.mem_of_find?_eq_some hfind
    have hval : isUTaskInstance t = false := by
      rw [← hsnd]
      exact shipped_values_not_utask tm p hp
    rw [hval]

end ClusterfuzzTasks
